import Mathlib

/-!
Shallow embedding of the nodejscryptovid sources.

Files embedded:
- src/unnamed/part_000 : frame signer plus frame verifier (EIP-191 over
  per-frame sha256 digests), negative-verification self test, manifest hash
  certificate, verifiable MP4 writer.
- src/sign_video.js    : whole-file signer.
- src/unnamed/part_001 : whole-file verifier.

External primitives (sha256, keccak based EIP-191 signing and recovery, the
ffmpeg container encoder, the JSON parser of the JavaScript runtime) are kept
abstract as fields of the Env structure; every pipeline function of the
repository is translated as an executable Lean function over that structure.
-/

namespace CryptoVid

/-- Model of a parsed JSON value, the result of JSON.parse in the verifier.
Numbers are restricted to integers, which covers every number the pipelines
produce (millisecond timestamps and ordinals). -/
inductive JsonV : Type where
  | null : JsonV
  | bool (b : Bool) : JsonV
  | num (n : Int) : JsonV
  | str (s : String) : JsonV
  | arr (xs : List JsonV) : JsonV
  | obj (fields : List (String × JsonV)) : JsonV

mutual

/-- JavaScript String() conversion for the values above; arrays join their
elements with commas, null elements of an array render as the empty string. -/
def jsToString : JsonV → String
  | .null => "null"
  | .bool b => cond b "true" "false"
  | .num n => toString n
  | .str s => s
  | .obj _ => "[object Object]"
  | .arr xs => jsArrJoin xs

/-- Array.prototype.toString: join with commas, null elements render empty. -/
def jsArrJoin : List JsonV → String
  | [] => ""
  | .null :: rest => (if rest.isEmpty then "" else "," ++ jsArrJoin rest)
  | x :: rest => jsToString x ++ (if rest.isEmpty then "" else "," ++ jsArrJoin rest)

end

/-- Property access parsed.key on a parsed JSON value: on objects the last
binding of the key wins (as with duplicate keys under JSON.parse); on every
other value the named properties read back undefined, modelled as none. -/
def jget : JsonV → String → Option JsonV
  | .obj fs, k => fs.foldl (fun acc p => if p.1 = k then some p.2 else acc) none
  | _, _ => none

/-- String(parsed.key): missing properties stringify to undefined. -/
def jsString (v : Option JsonV) : String :=
  match v with
  | none => "undefined"
  | some x => jsToString x

/-- A media container as the tag collaborator sees it: an ordered list of
metadata key/value tags plus the encoded stream bytes, which every ffmpeg
invocation of this repository copies bit for bit (-c copy). -/
structure Container : Type where
  tags : List (String × String)
  streams : List Nat
deriving DecidableEq

/-- Set one metadata tag: override the value of an existing key, else append
the pair, as the -metadata key=value ffmpeg option does. -/
def setTag (tags : List (String × String)) (k v : String) : List (String × String) :=
  if (tags.lookup k).isSome then
    tags.map (fun p => if p.1 = k then (k, v) else p)
  else
    tags ++ [(k, v)]

/-- Apply one optional -metadata argument; the JavaScript writers only push
the option when the value is a string. -/
def applyTag (tags : List (String × String)) (k : String) : Option String → List (String × String)
  | none => tags
  | some v => setTag tags k v

/-- writeMetadata of src/sign_video.js lines 43-56: -map_metadata 0 preserves
the input tags, then the provided keys are overridden, streams are copied. -/
def writeMetadata (input : Container) (artist album title comment : Option String) : Container :=
  { tags := applyTag (applyTag (applyTag (applyTag input.tags "artist" artist)
      "album" album) "title" title) "comment" comment,
    streams := input.streams }

/-- writeCanonicalMetadata of src/sign_video.js lines 59-71 and
src/unnamed/part_001 lines 68-80: -map_metadata -1 clears all tags first,
then only the provided keys are set, streams are copied. -/
def writeCanonicalMetadata (input : Container) (artist album title comment : Option String) : Container :=
  { tags := applyTag (applyTag (applyTag (applyTag ([] : List (String × String)) "artist" artist)
      "album" album) "title" title) "comment" comment,
    streams := input.streams }

/-- Byte sequence of an ASCII message string; every message signed by this
repository is ASCII JSON, so code points and UTF-8 bytes agree. -/
def strBytes (s : String) : List Nat :=
  s.data.map (fun c => c.toNat)

/-- Model of the JavaScript toLowerCase on the ASCII strings this system
compares (hex digests, hex addresses): lower each character. -/
def toLowerStr (s : String) : String :=
  ⟨s.data.map Char.toLower⟩

/-- Model of the JavaScript trim: drop whitespace from both ends. -/
def trimStr (s : String) : String :=
  ⟨((s.data.dropWhile Char.isWhitespace).reverse.dropWhile Char.isWhitespace).reverse⟩

/-- readMetadataTags: scan the ffmetadata lines for a key, case-insensitive on
the key, later lines override earlier ones, default is the empty string. -/
def readTagLower (tags : List (String × String)) (key : String) : String :=
  tags.foldl (fun acc p => if toLowerStr p.1 = key then p.2 else acc) ""

/-- Value of one hex digit, none for a non-hex character. -/
def hexVal (c : Char) : Option Nat :=
  if c.isDigit then some (c.toNat - 48)
  else if ('a' ≤ c ∧ c ≤ 'f') then some (c.toNat - 87)
  else if ('A' ≤ c ∧ c ≤ 'F') then some (c.toNat - 55)
  else none

/-- Buffer.from(s, hex): decode pairs of hex digits, stopping at the first
character pair that is not valid hex. -/
def hexPairs : List Char → List Nat
  | c1 :: c2 :: rest =>
    match hexVal c1, hexVal c2 with
    | some h, some l => (16 * h + l) :: hexPairs rest
    | _, _ => []
  | _ => []

/-- Hex string to bytes, as Buffer.from(manifestSha256Hex, hex) does. -/
def hexToBytes (s : String) : List Nat :=
  hexPairs s.data

/-- The abstract cryptographic and media primitives the repository calls:
sha256 hex digest, EIP-191 message hash, signing of raw bytes, address and
public key recovery, signature splitting, the signing wallet identity, the
ffmpeg container serializer, and the JSON parser of the runtime. -/
structure Env : Type where
  sha256Hex : List Nat → String
  hashMessage : String → String
  signMessageBytes : List Nat → String
  ethVerifyMessage : String → String → String
  recoverPublicKey : String → String → String
  splitSig : String → String × String × Nat
  address : String
  publicKey : String
  encode : Container → List Nat
  parseJson : String → Option JsonV

/-- wallet.signMessage on a string argument signs the byte encoding of the
string under EIP-191. -/
def Env.signMessage (E : Env) (s : String) : String :=
  E.signMessageBytes (strBytes s)

/-- buildMessageString of src/unnamed/part_000 lines 124-131:
JSON.stringify with the stable key order startTimestampMs, frameNumber,
frameHashSha256. -/
def buildMessageString (startTimestampMs frameNumber : Nat) (frameHashSha256 : String) : String :=
  "\x7b\"startTimestampMs\":" ++ toString startTimestampMs ++
  ",\"frameNumber\":" ++ toString frameNumber ++
  ",\"frameHashSha256\":\"" ++ frameHashSha256 ++ "\"\x7d"

/-- The two-field whole-file message JSON.stringify with keys timestampMs,
fileHashSha256, as built in src/sign_video.js line 138 and
src/unnamed/part_001 line 166. -/
def buildFileMessage (timestampMs : Nat) (fileHashSha256 : String) : String :=
  "\x7b\"timestampMs\":" ++ toString timestampMs ++
  ",\"fileHashSha256\":\"" ++ fileHashSha256 ++ "\"\x7d"

/-- The embedded payload JSON of src/sign_video.js line 159: JSON.stringify
with keys timestampMs, fileHashSha256, signerAddress, signature. -/
def payloadJsonStr (timestampMs : Nat) (fileHashSha256 signerAddress signature : String) : String :=
  "\x7b\"timestampMs\":" ++ toString timestampMs ++
  ",\"fileHashSha256\":\"" ++ fileHashSha256 ++
  "\",\"signerAddress\":\"" ++ signerAddress ++
  "\",\"signature\":\"" ++ signature ++ "\"\x7d"

/-- One signed frame record as pushed into the frames array of the manifest,
src/unnamed/part_000 lines 208-218. -/
structure FrameRecord : Type where
  frameNumber : Nat
  filename : String
  frameHashSha256 : String
  message : String
  messageKeccak256 : String
  signature : String
  r : String
  s : String
  v : Nat
deriving DecidableEq

/-- The signer block of the manifest, src/unnamed/part_000 lines 232-239;
the four trailing fields are fixed descriptive strings (the original keys are
algo, messagePrefix, hash and eip). -/
structure SignerInfo : Type where
  address : String
  publicKey : String
  algo : String := "secp256k1"
  msgPrefixTag : String := "Ethereum Signed Message"
  hashAlgo : String := "keccak256"
  eip : String := "191"
deriving DecidableEq

/-- The persisted frames manifest, src/unnamed/part_000 lines 226-241. -/
structure Manifest : Type where
  schema : String
  inputVideo : String
  startTimestampMs : Nat
  signer : SignerInfo
  frames : List FrameRecord
deriving DecidableEq

/-- Result record of verifyEip191, src/unnamed/part_000 lines 141-150. -/
structure VerifyResult : Type where
  addrOk : Bool
  pubOk : Bool
  recoveredAddress : String
  recoveredPublicKey : String
deriving DecidableEq

/-- verifyEip191 of src/unnamed/part_000 lines 141-150: recover the address
from the message and signature, recover the public key from the EIP-191
message hash, compare both case-insensitively; the public key comparison is
skipped, counting as true, when the expected public key argument is absent or
empty (falsy in the source). -/
def verifyEip191 (E : Env) (expectedAddress messageString signature : String)
    (expectedPublicKeyHex : Option String) : VerifyResult :=
  let recoveredAddress := E.ethVerifyMessage messageString signature
  let messageKeccak256 := E.hashMessage messageString
  let recoveredPublicKey := E.recoverPublicKey messageKeccak256 signature
  let addrOk := toLowerStr recoveredAddress = toLowerStr expectedAddress
  let pubOk :=
    match expectedPublicKeyHex with
    | none => true
    | some pk => if pk = "" then true else (toLowerStr recoveredPublicKey = toLowerStr pk)
  { addrOk := addrOk, pubOk := pubOk,
    recoveredAddress := recoveredAddress, recoveredPublicKey := recoveredPublicKey }

/-- One iteration of the signing loop, src/unnamed/part_000 lines 199-218:
hash the frame bytes, build the three-field message with the shared run
start timestamp and the 1-based frame number, sign it under EIP-191, record
the signature and its split parts. -/
def processFrame (E : Env) (startTimestampMs frameNumber : Nat) (filename : String)
    (buf : List Nat) : FrameRecord :=
  let frameHashSha256 := E.sha256Hex buf
  let messageString := buildMessageString startTimestampMs frameNumber frameHashSha256
  let signature := E.signMessage messageString
  let parts := E.splitSig signature
  { frameNumber := frameNumber, filename := filename,
    frameHashSha256 := frameHashSha256,
    message := messageString,
    messageKeccak256 := E.hashMessage messageString,
    signature := signature,
    r := parts.1, s := parts.2.1, v := parts.2.2 }

/-- The signing loop over the sorted frame filenames, with frame numbers
counted from the given start ordinal; the top-level call uses 1. -/
def signFramesLoop (E : Env) (startTimestampMs : Nat) (contents : String → List Nat) :
    List String → Nat → List FrameRecord
  | [], _ => []
  | name :: rest, i =>
    processFrame E startTimestampMs i name (contents name) :: signFramesLoop E startTimestampMs contents rest (i + 1)

/-- All frame records of one signing run, in sorted filename order with
ordinals starting at 1. -/
def signFrames (E : Env) (startTimestampMs : Nat) (contents : String → List Nat)
    (files : List String) : List FrameRecord :=
  signFramesLoop E startTimestampMs contents files 1

/-- The manifest object assembled after the signing loop,
src/unnamed/part_000 lines 226-241. -/
def mkManifest (E : Env) (inputVideo : String) (startTimestampMs : Nat)
    (frames : List FrameRecord) : Manifest :=
  { schema := "crypto-video-frames-manifest@1",
    inputVideo := inputVideo,
    startTimestampMs := startTimestampMs,
    signer := { address := E.address, publicKey := E.publicKey },
    frames := frames }

/-- The distinct rejection causes of the frame verifier, one per throw site in
src/unnamed/part_000 lines 251-303. -/
inductive VerifyError : Type where
  | frameCountMismatch : VerifyError
  | filenameMismatch (i : Nat) : VerifyError
  | frameNumberMismatch (i : Nat) : VerifyError
  | hashMismatch (filename : String) : VerifyError
  | messageMismatch (filename : String) : VerifyError
  | signatureInvalid (filename : String) : VerifyError
deriving DecidableEq

/-- The frame-set loop of the verifier, src/unnamed/part_000 lines 259-267:
walk the manifest records in step with the fresh sorted listing and reject on
the first filename or frame-number mismatch; the index argument is the loop
counter. -/
def checkFrameSetAux (E : Env) : Nat → List String → List FrameRecord → Except VerifyError Unit
  | _, _, [] => .ok ()
  | i, name :: names, f :: fs =>
    if f.filename ≠ name then .error (.filenameMismatch i)
    else if f.frameNumber ≠ i + 1 then .error (.frameNumberMismatch i)
    else checkFrameSetAux E (i + 1) names fs
  | i, [], _ :: _ => .error (.filenameMismatch i)

/-- The per-frame recomputation of the verifier, src/unnamed/part_000 lines
274-299: recompute the sha256 from the bytes on disk, rebuild the message
from the manifest timestamp, then check stored digest, stored message and the
EIP-191 signature with both flags required. -/
def checkFrame (E : Env) (contents : String → List Nat) (verifyStartTs : Nat)
    (expectedAddress expectedPublicKey : String) (f : FrameRecord) : Except VerifyError Unit :=
  let buf := contents f.filename
  let recomputedSha := E.sha256Hex buf
  if recomputedSha ≠ f.frameHashSha256 then .error (.hashMismatch f.filename)
  else
    let recomputedMsg := buildMessageString verifyStartTs f.frameNumber recomputedSha
    if recomputedMsg ≠ f.message then .error (.messageMismatch f.filename)
    else
      let res := verifyEip191 E expectedAddress recomputedMsg f.signature (some expectedPublicKey)
      if ¬ res.addrOk ∨ ¬ res.pubOk then .error (.signatureInvalid f.filename)
      else .ok ()

/-- Fold of checkFrame over the manifest records in order. -/
def checkFramesAux (E : Env) (contents : String → List Nat) (verifyStartTs : Nat)
    (expectedAddress expectedPublicKey : String) : List FrameRecord → Except VerifyError Unit
  | [] => .ok ()
  | f :: fs =>
    match checkFrame E contents verifyStartTs expectedAddress expectedPublicKey f with
    | .error e => .error e
    | .ok () => checkFramesAux E contents verifyStartTs expectedAddress expectedPublicKey fs

/-- The whole verify step of src/unnamed/part_000 lines 251-303: count check
against the fresh sorted directory listing, then the frame-set loop, then the
per-frame digest, message and signature checks using only the timestamp,
address and public key stored in the manifest. -/
def verifyFrames (E : Env) (dirListing : List String) (contents : String → List Nat)
    (m : Manifest) : Except VerifyError Unit :=
  if dirListing.length ≠ m.frames.length then .error .frameCountMismatch
  else
    match checkFrameSetAux E 0 dirListing m.frames with
    | .error e => .error e
    | .ok () =>
      checkFramesAux E contents m.startTimestampMs m.signer.address m.signer.publicKey m.frames

/-- The loop body of the negative verification step, src/unnamed/part_000
lines 312-331: rebuild each message under the manifest timestamp plus one,
require it to differ from the stored message, and require the signature check
to fail; the errors carry the message strings thrown in the source. -/
def negLoop (E : Env) (contents : String → List Nat) (m : Manifest) :
    List FrameRecord → Except String Unit
  | [] => .ok ()
  | f :: fs =>
    let badStartTs := m.startTimestampMs + 1
    let buf := contents f.filename
    let recomputedSha := E.sha256Hex buf
    let recomputedMsg := buildMessageString badStartTs f.frameNumber recomputedSha
    if recomputedMsg = f.message then
      .error "Negative test invariant broken: recomputed message unexpectedly equals original"
    else
      let res := verifyEip191 E m.signer.address recomputedMsg f.signature (some m.signer.publicKey)
      if res.addrOk ∧ res.pubOk then
        .error "Negative verification unexpectedly succeeded for a frame"
      else negLoop E contents m fs

/-- The negative verification step, src/unnamed/part_000 lines 308-342: the
loop runs inside a try block whose catch sets negativeFailedAsExpected to
true for every thrown error, and the loop falling through also sets it to
true, so the step returns success on every path; the final throw for a flag
value of false is unreachable. -/
def negativeStep (E : Env) (contents : String → List Nat) (m : Manifest) : Except String Unit :=
  match negLoop E contents m m.frames with
  | _ => .ok ()

/-- Per-frame processing with a fallible read, for the abort behaviour of the
signing loop: reading, hashing or signing a frame can fail, surfaced as an
error value, src/unnamed/part_000 lines 198-224 under the enclosing try. -/
def signFramesLoopE (E : Env) (startTimestampMs : Nat)
    (readFrame : Nat → String → Except String (List Nat)) :
    List String → Nat → Except String (List FrameRecord)
  | [], _ => .ok []
  | name :: rest, i =>
    match readFrame i name with
    | .error e => .error e
    | .ok buf =>
      match signFramesLoopE E startTimestampMs readFrame rest (i + 1) with
      | .error e => .error e
      | .ok tail => .ok (processFrame E startTimestampMs i name buf :: tail)

/-- The manifest slot of the output directory; none models the absence of a
manifest file written by this run. -/
structure OutputState : Type where
  manifestFile : Option Manifest
deriving DecidableEq

/-- Signing run up to and including the Write manifest step,
src/unnamed/part_000 lines 198-246: the loop runs first and any frame
failure aborts before the manifest object is even assembled; the manifest
file is written only after every record has been produced. -/
def signRun (E : Env) (inputVideo : String) (startTimestampMs : Nat)
    (readFrame : Nat → String → Except String (List Nat))
    (files : List String) (fs0 : OutputState) : Except String Manifest × OutputState :=
  match signFramesLoopE E startTimestampMs readFrame files 1 with
  | .error e => (.error e, fs0)
  | .ok frames =>
    let m := mkManifest E inputVideo startTimestampMs frames
    (.ok m, { fs0 with manifestFile := some m })

/-- The manifest hash certificate step, src/unnamed/part_000 lines 344-365:
sha256 the manifest file bytes, decode that hex digest back to raw bytes,
sign those bytes directly with wallet.signMessage, and write the three text
lines input video name, start timestamp, manifest digest. -/
structure ManifestHashCert : Type where
  manifestSha256Hex : String
  manifestSignature : String
  hashTxtLines : List String
deriving DecidableEq

/-- signManifestHash models the step at src/unnamed/part_000 lines 344-365. -/
def signManifestHash (E : Env) (manifestBytes : List Nat) (inputVideo : String)
    (startTimestampMs : Nat) : ManifestHashCert :=
  let manifestSha256Hex := E.sha256Hex manifestBytes
  let manifestHashBytes := hexToBytes manifestSha256Hex
  let manifestSignature := E.signMessageBytes manifestHashBytes
  { manifestSha256Hex := manifestSha256Hex,
    manifestSignature := manifestSignature,
    hashTxtLines := [inputVideo, toString startTimestampMs, manifestSha256Hex] }

/-- Output of the whole-file signer pipeline of src/sign_video.js lines
97-180. -/
structure SignVideoResult : Type where
  final : Container
  canonical : Container
  fileHashHex : String
  messageString : String
  signature : String
  payload : String
deriving DecidableEq

/-- The whole-file signer, src/sign_video.js main: copy the input, write the
canonical copy carrying only comment=timestamp, hash and sign the canonical
bytes over the two-field message, then delete the canonical copy and produce
the delivered container by writing the payload JSON into the comment tag of
the plain input copy with writeMetadata, which preserves the original tags
(-map_metadata 0) and copies the streams. -/
def signVideo (E : Env) (input : Container) (startTimestampMs : Nat) : SignVideoResult :=
  let temp1 := input
  let temp2 := writeCanonicalMetadata temp1 none none none (some (toString startTimestampMs))
  let fileHashHex := E.sha256Hex (E.encode temp2)
  let messageString := buildFileMessage startTimestampMs fileHashHex
  let signature := E.signMessage messageString
  let payload := payloadJsonStr startTimestampMs fileHashHex E.address signature
  let final := writeMetadata temp1 none none none (some payload)
  { final := final, canonical := temp2, fileHashHex := fileHashHex,
    messageString := messageString, signature := signature, payload := payload }

/-- The distinct rejection causes of the whole-file verifier, one per throw
site in src/unnamed/part_001 lines 125-171. -/
inductive VideoVerifyError : Type where
  | missingPayload : VideoVerifyError
  | invalidPayload : VideoVerifyError
  | hashMismatch : VideoVerifyError
  | malformedTimestamp : VideoVerifyError
  | malformedAddress : VideoVerifyError
  | signatureMismatch : VideoVerifyError
deriving DecidableEq

/-- The truthiness and typeof object test of src/unnamed/part_001 line 131:
null is falsy, arrays count as objects, every other JSON value is rejected. -/
def jsIsObjectTruthy : JsonV → Bool
  | .null => false
  | .obj _ => true
  | .arr _ => true
  | _ => false

/-- The Read comment JSON metadata step, src/unnamed/part_001 lines 125-133:
trim the comment tag, fail when blank, fail when JSON.parse throws, fail when
the parse result is falsy or not of object type; the required payload fields
are not inspected here. -/
def readPayload (parse : String → Option JsonV) (commentTag : String) :
    Except VideoVerifyError JsonV :=
  let payload := trimStr commentTag
  if payload = "" then .error .missingPayload
  else
    match parse payload with
    | none => .error .invalidPayload
    | some v => if jsIsObjectTruthy v then .ok v else .error .invalidPayload

/-- The timestamp shape test of src/unnamed/part_001 line 155, the regular
expression of at least ten decimal digits anchored at both ends. -/
def tsNumericOk (s : String) : Bool :=
  decide (10 ≤ s.length) && s.data.all Char.isDigit

/-- One hex digit as accepted by the address shape test. -/
def isHexDigitChar (c : Char) : Bool :=
  c.isDigit || (decide ('a' ≤ c) && decide (c ≤ 'f')) || (decide ('A' ≤ c) && decide (c ≤ 'F'))

/-- The signer address shape test of src/unnamed/part_001 line 160, the
regular expression 0x followed by exactly forty hex digits. -/
def addrShapeOk (s : String) : Bool :=
  decide (s.length = 42) && decide (s.data.take 2 = ['0', 'x']) && (s.data.drop 2).all isHexDigitChar

/-- Number() on a string of decimal digits, as applied after the timestamp
shape test has passed. -/
def natOfDigits (s : String) : Nat :=
  s.data.foldl (fun acc c => acc * 10 + (c.toNat - 48)) 0

/-- The verifier steps of src/unnamed/part_001 lines 140-171 on the four
extracted payload strings: re-canonicalize the container to only
comment=timestamp and compare the sha256 hex case-insensitively, then the
timestamp shape test, then the address shape test, then rebuild the
two-field message from the payload fields and compare the recovered address
case-insensitively. -/
def checksWith (E : Env) (container : Container)
    (tsStr fileHashExpected signerAddress signature : String) :
    Except VideoVerifyError Unit :=
  let canon := writeCanonicalMetadata container none none none (some tsStr)
  let actualHash := E.sha256Hex (E.encode canon)
  if toLowerStr actualHash ≠ toLowerStr fileHashExpected then .error .hashMismatch
  else if ¬ tsNumericOk tsStr then .error .malformedTimestamp
  else if ¬ addrShapeOk signerAddress then .error .malformedAddress
  else
    let msg := buildFileMessage (natOfDigits tsStr) fileHashExpected
    let recovered := E.ethVerifyMessage msg signature
    if toLowerStr recovered ≠ toLowerStr signerAddress then .error .signatureMismatch
    else .ok ()

/-- The verifier steps after the payload parse: first the four field reads of
src/unnamed/part_001 lines 135-138, each through String(), then the checks
above. -/
def checksAfterParse (E : Env) (container : Container) (v : JsonV) :
    Except VideoVerifyError Unit :=
  checksWith E container
    (jsString (jget v "timestampMs"))
    (jsString (jget v "fileHashSha256"))
    (jsString (jget v "signerAddress"))
    (jsString (jget v "signature"))

/-- The whole-file verifier mainWith of src/unnamed/part_001 lines 106-179 on
a delivered container: read the comment tag, parse the payload, then run the
hash, shape and signature checks. -/
def verifyVideo (E : Env) (container : Container) : Except VideoVerifyError Unit :=
  match readPayload E.parseJson (readTagLower container.tags "comment") with
  | .error e => .error e
  | .ok v => checksAfterParse E container v

/-- Replace every binding of a key in an association list, appending the
binding when the key is absent; models assigning one property of a parsed
JSON object. -/
def setAssoc (fs : List (String × JsonV)) (k : String) (x : JsonV) : List (String × JsonV) :=
  if fs.any (fun p => p.1 = k) then fs.map (fun p => if p.1 = k then (k, x) else p)
  else fs ++ [(k, x)]

/-- Replace one property of a JSON object value; non-objects are returned
unchanged. -/
def setField : JsonV → String → JsonV → JsonV
  | .obj fs, k, x => .obj (setAssoc fs k x)
  | v, _, _ => v

/-- Swap the stored filenames of the first two manifest records, leaving
digests, messages and signatures in place. -/
def swapFirstTwoFilenames : List FrameRecord → List FrameRecord
  | a :: b :: rest =>
    { a with filename := b.filename } :: { b with filename := a.filename } :: rest
  | l => l

/-- A concrete environment for evaluating the pipelines on small inputs: the
digest is a fixed string, signing tags the byte list, recovery returns the
fixed signer identity regardless of the message. -/
def baseEnv : Env :=
  { sha256Hex := fun _ => "aa",
    hashMessage := fun m => "K:" ++ m,
    signMessageBytes := fun bs => "SIG:" ++ toString bs,
    ethVerifyMessage := fun _ _ => "0xA",
    recoverPublicKey := fun _ _ => "PUB",
    splitSig := fun _ => ("r", "s", 27),
    address := "0xA",
    publicKey := "PUB",
    encode := fun c => c.streams,
    parseJson := fun _ => none }

/-- A one-frame manifest produced by the signing loop of baseEnv, used to
evaluate the negative verification step. -/
def exManifest : Manifest :=
  mkManifest baseEnv "test.mp4" 1000 (signFrames baseEnv 1000 (fun _ => [0]) ["frame_000001.png"])

/-- A payload object whose signer address has a bad shape and whose stored
digest does not match the recomputed one under an environment hashing to zz. -/
def badAddrPayload : JsonV :=
  .obj [("timestampMs", .num 1234567890), ("fileHashSha256", .str "aa"),
        ("signerAddress", .str "not-an-address"), ("signature", .str "s")]

/-- An environment whose digest never matches the stored one of
badAddrPayload and whose parser returns that payload for the tag value
PAYLOAD. -/
def zzEnv : Env :=
  { baseEnv with
    sha256Hex := fun _ => "zz",
    parseJson := fun s => if s = "PAYLOAD" then some badAddrPayload else none }

/-- A payload object accepted by checksAfterParse under hashCaseEnv. -/
def okPayload : JsonV :=
  .obj [("timestampMs", .num 1234567890), ("fileHashSha256", .str "aa"),
        ("signerAddress", .str "0xAAAAAAAAAAAAAAAAAAAAAAAAAAAAAAAAAAAAAAAA"),
        ("signature", .str "s")]

/-- okPayload with only the letter case of the stored digest changed. -/
def okPayloadUpper : JsonV :=
  .obj [("timestampMs", .num 1234567890), ("fileHashSha256", .str "AA"),
        ("signerAddress", .str "0xAAAAAAAAAAAAAAAAAAAAAAAAAAAAAAAAAAAAAAAA"),
        ("signature", .str "s")]

/-- An environment whose digest matches okPayload and whose address recovery
depends on the message, as elliptic curve recovery does: only the exact
originally signed message recovers the signer address. -/
def hashCaseEnv : Env :=
  { baseEnv with
    ethVerifyMessage := fun m s =>
      if m = buildFileMessage 1234567890 "aa" ∧ s = "s" then
        "0xaaaaaaaaaaaaaaaaaaaaaaaaaaaaaaaaaaaaaaaa"
      else "0x0000000000000000000000000000000000000000" }

/-! Lemmas about the frame signing loop. -/

lemma signFramesLoop_length (E : Env) (ts : Nat) (contents : String → List Nat) :
    ∀ (files : List String) (k : Nat), (signFramesLoop E ts contents files k).length = files.length := by
  intro files
  induction files with
  | nil => intro k; rfl
  | cons n rest ih => intro k; simp [signFramesLoop, ih]

lemma checkFrameSetAux_sign (E : Env) (ts : Nat) (contents : String → List Nat) :
    ∀ (files : List String) (i : Nat),
      checkFrameSetAux E i files (signFramesLoop E ts contents files (i + 1)) = .ok () := by
  intro files
  induction files with
  | nil => intro i; rfl
  | cons n rest ih =>
    intro i
    have h := ih (i + 1)
    simp [signFramesLoop, checkFrameSetAux, processFrame] at h ⊢
    exact h

lemma checkFrame_sign (E : Env) (ts k : Nat) (name : String) (contents : String → List Nat)
    (hsig : ∀ m, E.ethVerifyMessage m (E.signMessage m) = E.address)
    (hpub : ∀ m, E.recoverPublicKey (E.hashMessage m) (E.signMessage m) = E.publicKey) :
    checkFrame E contents ts E.address E.publicKey (processFrame E ts k name (contents name)) = .ok () := by
  by_cases hpk : E.publicKey = "" <;>
    simp [checkFrame, processFrame, verifyEip191, hsig, hpub, hpk]

lemma checkFramesAux_sign (E : Env) (ts : Nat) (contents : String → List Nat)
    (hsig : ∀ m, E.ethVerifyMessage m (E.signMessage m) = E.address)
    (hpub : ∀ m, E.recoverPublicKey (E.hashMessage m) (E.signMessage m) = E.publicKey) :
    ∀ (files : List String) (k : Nat),
      checkFramesAux E contents ts E.address E.publicKey (signFramesLoop E ts contents files k) = .ok () := by
  intro files
  induction files with
  | nil => intro k; rfl
  | cons n rest ih =>
    intro k
    have hcf := checkFrame_sign E ts k n contents hsig hpub
    simp [signFramesLoop, checkFramesAux, hcf]
    exact ih (k + 1)

/-- C1: for every non-empty frame set and run-start timestamp, signing every
frame with the shared timestamp and 1-based ordinals and then running the
frame verifier over the resulting manifest and the same frame files ends in
acceptance, under the recovery correctness of the signature scheme. -/
theorem signVerify_roundTrip (E : Env) (ts : Nat) (contents : String → List Nat)
    (files : List String) (inputVideo : String) (hne : files ≠ [])
    (hsig : ∀ m, E.ethVerifyMessage m (E.signMessage m) = E.address)
    (hpub : ∀ m, E.recoverPublicKey (E.hashMessage m) (E.signMessage m) = E.publicKey) :
    verifyFrames E files contents (mkManifest E inputVideo ts (signFrames E ts contents files)) = .ok () := by
  have hlen := signFramesLoop_length E ts contents files 1
  have hset := checkFrameSetAux_sign E ts contents files 0
  have hchk := checkFramesAux_sign E ts contents hsig hpub files 1
  simp [verifyFrames, mkManifest, signFrames, hlen, hset, hchk]

/-- Witness for C1, at a concrete one-frame input and a concrete recovery
scheme satisfying the hypotheses. -/
theorem signVerify_roundTrip_witness :
    (["frame_000001.png"] ≠ ([] : List String))
    ∧ (∀ m, baseEnv.ethVerifyMessage m (baseEnv.signMessage m) = baseEnv.address)
    ∧ (∀ m, baseEnv.recoverPublicKey (baseEnv.hashMessage m) (baseEnv.signMessage m) = baseEnv.publicKey)
    ∧ verifyFrames baseEnv ["frame_000001.png"] (fun _ => [0])
        (mkManifest baseEnv "test.mp4" 1000 (signFrames baseEnv 1000 (fun _ => [0]) ["frame_000001.png"])) = .ok () :=
  ⟨by decide, fun _ => rfl, fun _ => rfl,
   signVerify_roundTrip baseEnv 1000 (fun _ => [0]) ["frame_000001.png"] "test.mp4"
     (by decide) (fun _ => rfl) (fun _ => rfl)⟩

/-- C5: swapping the stored filenames of the first two records of a signed
manifest makes the verifier reject with the frame-set filename mismatch at
index 0, for every contents function the verification run could read, so no
digest recomputation influences the outcome. -/
theorem filenameSwap_frameSetReject (E : Env) (ts : Nat) (contents c2 : String → List Nat)
    (inputVideo nA nB : String) (rest : List String) (hne : nA ≠ nB) :
    verifyFrames E (nA :: nB :: rest) c2
      { mkManifest E inputVideo ts (signFrames E ts contents (nA :: nB :: rest)) with
        frames := swapFirstTwoFilenames (signFrames E ts contents (nA :: nB :: rest)) }
      = .error (.filenameMismatch 0) := by
  have hlen := signFramesLoop_length E ts contents rest 3
  simp [verifyFrames, mkManifest, signFrames, signFramesLoop, swapFirstTwoFilenames,
    checkFrameSetAux, processFrame, hlen, Ne.symm hne]

/-- Witness for C5 at two concrete frames. -/
theorem filenameSwap_frameSetReject_witness :
    ("a.png" ≠ "b.png")
    ∧ verifyFrames baseEnv ["a.png", "b.png"] (fun _ => [1])
        { mkManifest baseEnv "test.mp4" 1000 (signFrames baseEnv 1000 (fun _ => [0]) ["a.png", "b.png"]) with
          frames := swapFirstTwoFilenames (signFrames baseEnv 1000 (fun _ => [0]) ["a.png", "b.png"]) }
        = .error (.filenameMismatch 0) :=
  ⟨by decide,
   filenameSwap_frameSetReject baseEnv 1000 (fun _ => [0]) (fun _ => [1]) "test.mp4" "a.png" "b.png" []
     (by decide)⟩

/-! Lemmas about the fallible signing loop. -/

lemma signFramesLoopE_err (E : Env) (ts : Nat)
    (readFrame : Nat → String → Except String (List Nat)) :
    ∀ (files : List String) (k : Nat),
      (∃ j, ∃ hj : j < files.length, ∃ e, readFrame (k + j) (files.get ⟨j, hj⟩) = .error e) →
      ∃ e, signFramesLoopE E ts readFrame files k = .error e := by
  intro files
  induction files with
  | nil =>
    rintro k ⟨j, hj, -⟩
    exact absurd hj (Nat.not_lt_zero j)
  | cons name rest ih =>
    rintro k ⟨j, hj, e, he⟩
    cases j with
    | zero =>
      refine ⟨e, ?_⟩
      have he0 : readFrame k name = .error e := by simpa using he
      simp [signFramesLoopE, he0]
    | succ j =>
      have hrec : ∃ e2, signFramesLoopE E ts readFrame rest (k + 1) = .error e2 := by
        refine ih (k + 1) ⟨j, Nat.lt_of_succ_lt_succ hj, e, ?_⟩
        have : k + 1 + j = k + (j + 1) := by omega
        rw [this]
        simpa using he
      obtain ⟨e2, he2⟩ := hrec
      cases hr : readFrame k name with
      | error e0 => exact ⟨e0, by simp [signFramesLoopE, hr]⟩
      | ok buf => exact ⟨e2, by simp [signFramesLoopE, hr, he2]⟩

/-- C7: when reading any individual frame fails at any index, the signing run
returns an error and the manifest slot of the output state is left exactly as
it was, so no manifest file is persisted by the failed run. -/
theorem signRun_abortNoWrite (E : Env) (inputVideo : String) (ts : Nat)
    (readFrame : Nat → String → Except String (List Nat)) (files : List String) (fs0 : OutputState)
    (h : ∃ j, ∃ hj : j < files.length, ∃ e, readFrame (1 + j) (files.get ⟨j, hj⟩) = .error e) :
    (∃ e, (signRun E inputVideo ts readFrame files fs0).1 = .error e)
    ∧ (signRun E inputVideo ts readFrame files fs0).2 = fs0 := by
  obtain ⟨e, hl⟩ := signFramesLoopE_err E ts readFrame files 1 h
  exact ⟨⟨e, by simp [signRun, hl]⟩, by simp [signRun, hl]⟩

/-- Witness for C7: one frame whose read fails, starting from an output state
holding a previous manifest, which is left unchanged. -/
theorem signRun_abortNoWrite_witness :
    (∃ j, ∃ hj : j < (["a.png"] : List String).length,
       ∃ e, (fun (_ : Nat) (_ : String) => (.error "read failed" : Except String (List Nat))) (1 + j)
              ((["a.png"] : List String).get ⟨j, hj⟩) = .error e)
    ∧ (∃ e, (signRun baseEnv "test.mp4" 1000 (fun _ _ => .error "read failed") ["a.png"]
               ⟨some exManifest⟩).1 = .error e)
    ∧ (signRun baseEnv "test.mp4" 1000 (fun _ _ => .error "read failed") ["a.png"]
         ⟨some exManifest⟩).2 = ⟨some exManifest⟩ :=
  ⟨⟨0, by decide, "read failed", rfl⟩,
   (signRun_abortNoWrite baseEnv "test.mp4" 1000 (fun _ _ => .error "read failed") ["a.png"]
      ⟨some exManifest⟩ ⟨0, by decide, "read failed", rfl⟩).1,
   (signRun_abortNoWrite baseEnv "test.mp4" 1000 (fun _ _ => .error "read failed") ["a.png"]
      ⟨some exManifest⟩ ⟨0, by decide, "read failed", rfl⟩).2⟩

/-- C2 (code bug): at a concrete run in which a frame signature still
verifies under the manifest timestamp plus one, the inner loop of the
negative verification step does throw the spurious-success error, but the
enclosing step swallows every thrown error and reports success, so the run is
not rejected; the step in fact returns success for every input. -/
theorem negativeStep_swallowsSpuriousSuccess :
    negLoop baseEnv (fun _ => [0]) exManifest exManifest.frames
        = .error "Negative verification unexpectedly succeeded for a frame"
    ∧ negativeStep baseEnv (fun _ => [0]) exManifest = .ok ()
    ∧ (∀ (E : Env) (c : String → List Nat) (m : Manifest), negativeStep E c m = .ok ()) :=
  ⟨rfl, rfl, fun _ _ _ => rfl⟩

/-- C3 counterexample: a delivered container produced by the whole-file
signer from an input carrying a genre tag still carries that tag, and none of
its tags holds the bare canonical timestamp string, contradicting the claim
that the final tags are the preserved timestamp tag plus the payload slot
with all other tags cleared. -/
theorem finalizeTags_counterexample :
    ((signVideo baseEnv ⟨[("genre", "x")], [7]⟩ 1000).final.tags.lookup "genre" = some "x")
    ∧ (∀ p ∈ (signVideo baseEnv ⟨[("genre", "x")], [7]⟩ 1000).final.tags, p.2 ≠ toString 1000) :=
  ⟨rfl, by decide⟩

/-- C3 amended: the delivered container keeps all tags of the original input
container, with the payload JSON set into the comment slot; the canonical
timestamp-only copy is a separate intermediate whose only tag is the
timestamp comment, and the delivered streams are the input streams unchanged. -/
theorem finalizeTags_amended (E : Env) (input : Container) (ts : Nat) :
    (signVideo E input ts).final.tags = setTag input.tags "comment" (signVideo E input ts).payload
    ∧ (signVideo E input ts).final.streams = input.streams
    ∧ (signVideo E input ts).canonical.tags = [("comment", toString ts)]
    ∧ (signVideo E input ts).canonical.streams = input.streams :=
  ⟨rfl, rfl, rfl, rfl⟩

/-- C4 counterexample: under a concrete scheme the certificate signature
produced by the manifest hash step differs from a signature over the
two-field timestamp and digest message, because the step signs the raw hash
bytes directly. -/
theorem manifestCert_counterexample :
    (signManifestHash baseEnv [0] "test.mp4" 1000).manifestSignature
      ≠ baseEnv.signMessage
          (buildFileMessage 1000 (signManifestHash baseEnv [0] "test.mp4" 1000).manifestSha256Hex) := by
  decide

/-- C4 amended: the detached certificate hashes the serialized manifest and
signs the raw bytes of that hex digest directly as the EIP-191 message, with
no two-field message involved; the certificate file lines are the input
name, the run-start timestamp and the manifest digest. -/
theorem manifestCert_amended (E : Env) (manifestBytes : List Nat) (inputVideo : String) (ts : Nat) :
    (signManifestHash E manifestBytes inputVideo ts).manifestSignature
        = E.signMessageBytes (hexToBytes (E.sha256Hex manifestBytes))
    ∧ (signManifestHash E manifestBytes inputVideo ts).hashTxtLines
        = [inputVideo, toString ts, E.sha256Hex manifestBytes] :=
  ⟨rfl, rfl⟩

/-- C8 counterexample: a parseable JSON object carrying none of the required
payload fields passes the payload-read step, whose result is success, so
missing required fields are not rejected at this step. -/
theorem readPayload_missingFields_counterexample :
    readPayload (fun s => if s = "X" then some (.obj [("foo", .num 1)]) else none) "X"
        = .ok (.obj [("foo", .num 1)])
    ∧ jget (.obj [("foo", .num 1)]) "timestampMs" = none
    ∧ jget (.obj [("foo", .num 1)]) "fileHashSha256" = none
    ∧ jget (.obj [("foo", .num 1)]) "signerAddress" = none
    ∧ jget (.obj [("foo", .num 1)]) "signature" = none :=
  ⟨rfl, rfl, rfl, rfl, rfl⟩

/-- C8 amended: the payload-read step fails exactly when the trimmed comment
tag is empty, when it does not parse as JSON, or when the parse result is
falsy or not of object type; the presence of the required fields is not part
of this step. -/
theorem readPayload_error_iff (parse : String → Option JsonV) (tag : String) :
    (∃ e, readPayload parse tag = .error e) ↔
      (trimStr tag = "" ∨ parse (trimStr tag) = none
        ∨ ∃ v, parse (trimStr tag) = some v ∧ jsIsObjectTruthy v = false) := by
  unfold readPayload
  by_cases h1 : trimStr tag = ""
  · simp [h1]
  · cases hp : parse (trimStr tag) with
    | none => simp [h1, hp]
    | some v =>
      by_cases ho : jsIsObjectTruthy v <;> simp [h1, hp, ho]

/-- C9: the public key flag of verifyEip191 is trivially true when no
expected public key is supplied, in which case acceptance equals the address
flag alone; when a nonempty expected public key is supplied, both flags are
exactly the case-insensitive address and public key comparisons; and a frame
accepted by the per-frame check of the verifier has both flags true. -/
theorem verifyAcceptance (E : Env) (addr msg sig : String) :
    ((verifyEip191 E addr msg sig none).pubOk = true)
    ∧ (((verifyEip191 E addr msg sig none).addrOk && (verifyEip191 E addr msg sig none).pubOk)
        = (verifyEip191 E addr msg sig none).addrOk)
    ∧ (∀ pk : String, pk ≠ "" →
        ((verifyEip191 E addr msg sig (some pk)).addrOk
            = decide (toLowerStr (E.ethVerifyMessage msg sig) = toLowerStr addr)
         ∧ (verifyEip191 E addr msg sig (some pk)).pubOk
            = decide (toLowerStr (E.recoverPublicKey (E.hashMessage msg) sig) = toLowerStr pk)))
    ∧ (∀ (contents : String → List Nat) (ts : Nat) (expPk : String) (f : FrameRecord),
        checkFrame E contents ts addr expPk f = .ok () →
        (verifyEip191 E addr f.message f.signature (some expPk)).addrOk = true
        ∧ (verifyEip191 E addr f.message f.signature (some expPk)).pubOk = true) := by
  refine ⟨rfl, Bool.and_true _, fun pk hpk => ⟨rfl, by simp [verifyEip191, hpk]⟩, ?_⟩
  intro contents ts expPk f h
  simp only [checkFrame] at h
  split_ifs at h with h1 h2 h3
  have hmsg : buildMessageString ts f.frameNumber (E.sha256Hex (contents f.filename)) = f.message := by
    by_contra hc
    exact h2 hc
  rw [← hmsg]
  push_neg at h3
  exact ⟨by simpa using h3.1, by simpa using h3.2⟩

/-- Witness for C9, at a concrete scheme, message and accepted frame. -/
theorem verifyAcceptance_witness :
    ("PUB" ≠ "")
    ∧ ((verifyEip191 baseEnv "0xA" "m" "s" (some "PUB")).pubOk
        = decide (toLowerStr (baseEnv.recoverPublicKey (baseEnv.hashMessage "m") "s") = toLowerStr "PUB"))
    ∧ (checkFrame baseEnv (fun _ => [0]) 1000 "0xA" "PUB" (processFrame baseEnv 1000 1 "a.png" [0]) = .ok ())
    ∧ (verifyEip191 baseEnv "0xA" (processFrame baseEnv 1000 1 "a.png" [0]).message
         (processFrame baseEnv 1000 1 "a.png" [0]).signature (some "PUB")).addrOk = true :=
  ⟨by decide,
   ((verifyAcceptance baseEnv "0xA" "m" "s").2.2.1 "PUB" (by decide)).2,
   rfl,
   ((verifyAcceptance baseEnv "0xA" "m" "s").2.2.2 (fun _ => [0]) 1000 "PUB"
      (processFrame baseEnv 1000 1 "a.png" [0]) rfl).1⟩

/-- C6 counterexample: with a payload whose signer address has a bad shape
and whose stored digest also disagrees with the recomputed one, the run fails
with the hash-mismatch error, not with the malformed-shape error, because the
hash comparison step runs before the shape checks. -/
theorem shapeError_counterexample :
    (addrShapeOk (jsString (jget badAddrPayload "signerAddress")) = false)
    ∧ verifyVideo zzEnv ⟨[("comment", "PAYLOAD")], []⟩ = .error .hashMismatch
    ∧ VideoVerifyError.hashMismatch ≠ .malformedAddress :=
  ⟨rfl, rfl, by decide⟩

/-- C6 amended: whenever the payload signer address fails the shape test, the
verifier rejects with an error that is never the signature-step error, the
outcome is independent of the address recovery function, so no signature
recovery influences it; and when the hash comparison and the timestamp shape
test both pass, the error is exactly the malformed-address one. -/
theorem shapeBeforeRecovery (E : Env) (c : Container) (v : JsonV)
    (hbad : addrShapeOk (jsString (jget v "signerAddress")) = false) :
    (∃ e, checksAfterParse E c v = .error e ∧ e ≠ .signatureMismatch)
    ∧ (∀ f, checksAfterParse { E with ethVerifyMessage := f } c v = checksAfterParse E c v)
    ∧ (toLowerStr (E.sha256Hex (E.encode (writeCanonicalMetadata c none none none
          (some (jsString (jget v "timestampMs"))))))
          = toLowerStr (jsString (jget v "fileHashSha256")) →
       tsNumericOk (jsString (jget v "timestampMs")) = true →
       checksAfterParse E c v = .error .malformedAddress) := by
  by_cases h1 : toLowerStr (E.sha256Hex (E.encode (writeCanonicalMetadata c none none none
      (some (jsString (jget v "timestampMs"))))))
      = toLowerStr (jsString (jget v "fileHashSha256"))
  · by_cases h2 : tsNumericOk (jsString (jget v "timestampMs")) = true
    · have he : checksAfterParse E c v = .error .malformedAddress := by
        simp [checksAfterParse, checksWith, h1, h2, hbad]
      have hef : ∀ f, checksAfterParse { E with ethVerifyMessage := f } c v
          = .error .malformedAddress := by
        intro f
        simp [checksAfterParse, checksWith, h1, h2, hbad]
      exact ⟨⟨.malformedAddress, he, by decide⟩,
             fun f => by rw [hef f, he], fun _ _ => he⟩
    · have he : checksAfterParse E c v = .error .malformedTimestamp := by
        simp [checksAfterParse, checksWith, h1, h2]
      have hef : ∀ f, checksAfterParse { E with ethVerifyMessage := f } c v
          = .error .malformedTimestamp := by
        intro f
        simp [checksAfterParse, checksWith, h1, h2]
      exact ⟨⟨.malformedTimestamp, he, by decide⟩,
             fun f => by rw [hef f, he], fun _ h2' => absurd h2' h2⟩
  · have he : checksAfterParse E c v = .error .hashMismatch := by
      simp [checksAfterParse, checksWith, h1]
    have hef : ∀ f, checksAfterParse { E with ethVerifyMessage := f } c v
        = .error .hashMismatch := by
      intro f
      simp [checksAfterParse, checksWith, h1]
    exact ⟨⟨.hashMismatch, he, by decide⟩,
           fun f => by rw [hef f, he], fun hh _ => absurd hh h1⟩

/-- Witness for C6 amended, at a payload whose digest matches and whose
timestamp is well shaped, so the run rejects precisely at the address shape
step. -/
theorem shapeBeforeRecovery_witness :
    (addrShapeOk (jsString (jget badAddrPayload "signerAddress")) = false)
    ∧ checksAfterParse baseEnv ⟨[], []⟩ badAddrPayload = .error .malformedAddress :=
  ⟨rfl, (shapeBeforeRecovery baseEnv ⟨[], []⟩ badAddrPayload rfl).2.2 rfl rfl⟩

/-! Lemmas about property update on parsed JSON objects. -/

lemma foldl_replaceMap_keep (k : String) (x : JsonV) :
    ∀ (fs : List (String × JsonV)),
      (fs.map (fun p => if p.1 = k then (k, x) else p)).foldl
          (fun a p => if p.1 = k then some p.2 else a) (some x) = some x := by
  intro fs
  induction fs with
  | nil => rfl
  | cons p rest ih =>
    by_cases hp : p.1 = k
    · simp [hp, ih]
    · simp [hp, ih]

lemma foldl_replaceMap_self (k : String) (x : JsonV) :
    ∀ (fs : List (String × JsonV)) (acc : Option JsonV),
      fs.any (fun p => decide (p.1 = k)) = true →
      ((fs.map (fun p => if p.1 = k then (k, x) else p)).foldl
          (fun a p => if p.1 = k then some p.2 else a) acc) = some x := by
  intro fs
  induction fs with
  | nil => intro acc h; simp at h
  | cons p rest ih =>
    intro acc hany
    by_cases hp : p.1 = k
    · simp only [List.map_cons, if_pos hp, List.foldl_cons, if_pos rfl]
      exact foldl_replaceMap_keep k x rest
    · have hr : rest.any (fun p => decide (p.1 = k)) = true := by
        simp only [List.any_cons, hp, decide_False, Bool.false_or] at hany
        exact hany
      simp only [List.map_cons, if_neg hp, List.foldl_cons, if_neg hp]
      exact ih acc hr

lemma foldl_setAssoc_self (k : String) (x : JsonV) :
    ∀ (fs : List (String × JsonV)) (acc : Option JsonV),
      ((setAssoc fs k x).foldl (fun a p => if p.1 = k then some p.2 else a) acc) = some x := by
  intro fs acc
  by_cases hany : fs.any (fun p => decide (p.1 = k)) = true
  · rw [setAssoc, if_pos hany]
    exact foldl_replaceMap_self k x fs acc hany
  · rw [setAssoc, if_neg hany, List.foldl_append]
    simp

lemma foldl_replaceMap_ne (k k' : String) (x : JsonV) (hne : ¬ (k = k')) :
    ∀ (fs : List (String × JsonV)) (acc : Option JsonV),
      ((fs.map (fun p => if p.1 = k then (k, x) else p)).foldl
          (fun a p => if p.1 = k' then some p.2 else a) acc)
        = fs.foldl (fun a p => if p.1 = k' then some p.2 else a) acc := by
  intro fs
  induction fs with
  | nil => intro acc; rfl
  | cons p rest ih =>
    intro acc
    by_cases hp : p.1 = k
    · have hp' : ¬ (p.1 = k') := by rw [hp]; exact hne
      simp only [List.map_cons, if_pos hp, List.foldl_cons, if_neg hne, if_neg hp']
      exact ih acc
    · simp only [List.map_cons, if_neg hp, List.foldl_cons]
      exact ih _

lemma foldl_setAssoc_ne (k k' : String) (x : JsonV) (hkk : k' ≠ k) :
    ∀ (fs : List (String × JsonV)) (acc : Option JsonV),
      ((setAssoc fs k x).foldl (fun a p => if p.1 = k' then some p.2 else a) acc)
        = fs.foldl (fun a p => if p.1 = k' then some p.2 else a) acc := by
  have hne : ¬ (k = k') := fun h => hkk (Eq.symm h)
  intro fs acc
  by_cases hany : fs.any (fun p => decide (p.1 = k)) = true
  · rw [setAssoc, if_pos hany]
    exact foldl_replaceMap_ne k k' x hne fs acc
  · rw [setAssoc, if_neg hany, List.foldl_append]
    simp [if_neg hne]

lemma jget_setField_self (fs : List (String × JsonV)) (k : String) (x : JsonV) :
    jget (setField (.obj fs) k x) k = some x := by
  simp [setField, jget, foldl_setAssoc_self]

lemma jget_setField_ne (fs : List (String × JsonV)) (k k' : String) (x : JsonV) (h : k' ≠ k) :
    jget (setField (.obj fs) k x) k' = jget (.obj fs) k' := by
  simp [setField, jget, foldl_setAssoc_ne k k' x h]

lemma jsString_str (s : String) : jsString (some (.str s)) = s := rfl

/-! Transfer lemmas for the whole-file checks. -/

lemma checksWith_addr_transfer (E : Env) (c : Container) (ts fh sa sig s' : String)
    (h0 : checksWith E c ts fh sa sig = .ok ())
    (hlow : toLowerStr s' = toLowerStr sa) (hshape : addrShapeOk s' = true) :
    checksWith E c ts fh s' sig = .ok () := by
  simp only [checksWith] at h0 ⊢
  split_ifs at h0 with h1 h2 h3 h4
  have h4' : toLowerStr (E.ethVerifyMessage (buildFileMessage (natOfDigits ts) fh) sig)
      = toLowerStr sa := not_not.mp h4
  rw [if_neg h1, if_neg (not_not_intro h2), if_neg (not_not_intro hshape),
    if_neg (not_not_intro (h4'.trans hlow.symm))]

lemma checksWith_hash_transfer (E : Env) (c : Container) (ts fh sa sig h' : String)
    (h0 : checksWith E c ts fh sa sig = .ok ())
    (hlow : toLowerStr h' = toLowerStr fh) :
    checksWith E c ts h' sa sig = .ok ()
      ∨ checksWith E c ts h' sa sig = .error .signatureMismatch := by
  simp only [checksWith] at h0 ⊢
  split_ifs at h0 with h1 h2 h3 h4
  have h1' : toLowerStr (E.sha256Hex (E.encode (writeCanonicalMetadata c none none none (some ts))))
      = toLowerStr fh := not_not.mp h1
  rw [if_neg (not_not_intro (h1'.trans hlow.symm)), if_neg (not_not_intro h2),
    if_neg (not_not_intro h3)]
  by_cases h5 : toLowerStr (E.ethVerifyMessage (buildFileMessage (natOfDigits ts) h') sig)
      ≠ toLowerStr sa
  · right; rw [if_pos h5]
  · left; rw [if_neg h5]

/-- C10 counterexample: under a message-sensitive recovery scheme a payload
differing from an accepted one only in the letter case of its stored digest
is rejected at the signature step, because the rebuilt two-field message uses
the payload digest string verbatim; so such a payload is not always accepted. -/
theorem digestCase_counterexample :
    checksAfterParse hashCaseEnv ⟨[("x", "y")], []⟩ okPayload = .ok ()
    ∧ setField okPayload "fileHashSha256" (.str "AA") = okPayloadUpper
    ∧ toLowerStr "AA" = toLowerStr "aa"
    ∧ checksAfterParse hashCaseEnv ⟨[("x", "y")], []⟩ okPayloadUpper
        = .error .signatureMismatch :=
  ⟨rfl, rfl, rfl, rfl⟩

/-- C10 amended: both the digest and the address comparisons of the
whole-file verifier are case-insensitive; a payload differing from an
accepted one only in the case of the signer address hex digits is still
accepted provided the new address keeps the required shape, while a payload
differing only in the case of the stored digest passes the hash comparison
and is then either accepted or rejected exactly at the signature step. -/
theorem caseInsensitive_amended (E : Env) (c : Container) (v : JsonV)
    (h0 : checksAfterParse E c v = .ok ()) :
    (∀ s', toLowerStr s' = toLowerStr (jsString (jget v "signerAddress")) →
        addrShapeOk s' = true →
        checksAfterParse E c (setField v "signerAddress" (.str s')) = .ok ())
    ∧ (∀ h', toLowerStr h' = toLowerStr (jsString (jget v "fileHashSha256")) →
        (checksAfterParse E c (setField v "fileHashSha256" (.str h')) = .ok ()
          ∨ checksAfterParse E c (setField v "fileHashSha256" (.str h')) = .error .signatureMismatch)) := by
  cases v with
  | obj fs =>
    constructor
    · intro s' hlow hshape
      have hv : checksAfterParse E c (setField (.obj fs) "signerAddress" (.str s'))
          = checksWith E c (jsString (jget (.obj fs) "timestampMs"))
              (jsString (jget (.obj fs) "fileHashSha256")) s'
              (jsString (jget (.obj fs) "signature")) := by
        simp only [checksAfterParse]
        rw [jget_setField_ne fs "signerAddress" "timestampMs" (.str s') (by decide),
            jget_setField_ne fs "signerAddress" "fileHashSha256" (.str s') (by decide),
            jget_setField_ne fs "signerAddress" "signature" (.str s') (by decide),
            jget_setField_self fs "signerAddress" (.str s'), jsString_str]
      rw [hv]
      exact checksWith_addr_transfer E c _ _ _ _ s' h0 hlow hshape
    · intro h' hlow
      have hv : checksAfterParse E c (setField (.obj fs) "fileHashSha256" (.str h'))
          = checksWith E c (jsString (jget (.obj fs) "timestampMs")) h'
              (jsString (jget (.obj fs) "signerAddress"))
              (jsString (jget (.obj fs) "signature")) := by
        simp only [checksAfterParse]
        rw [jget_setField_ne fs "fileHashSha256" "timestampMs" (.str h') (by decide),
            jget_setField_ne fs "fileHashSha256" "signerAddress" (.str h') (by decide),
            jget_setField_ne fs "fileHashSha256" "signature" (.str h') (by decide),
            jget_setField_self fs "fileHashSha256" (.str h'), jsString_str]
      rw [hv]
      exact checksWith_hash_transfer E c _ _ _ _ h' h0 hlow
  | null => exact ⟨fun _ _ _ => h0, fun _ _ => Or.inl h0⟩
  | bool b => exact ⟨fun _ _ _ => h0, fun _ _ => Or.inl h0⟩
  | num n => exact ⟨fun _ _ _ => h0, fun _ _ => Or.inl h0⟩
  | str s => exact ⟨fun _ _ _ => h0, fun _ _ => Or.inl h0⟩
  | arr xs => exact ⟨fun _ _ _ => h0, fun _ _ => Or.inl h0⟩

/-- Witness for C10 amended: an accepted payload stays accepted after the
signer address is replaced by its lowercase form. -/
theorem caseInsensitive_amended_witness :
    checksAfterParse hashCaseEnv ⟨[("x", "y")], []⟩ okPayload = .ok ()
    ∧ toLowerStr "0xaaaaaaaaaaaaaaaaaaaaaaaaaaaaaaaaaaaaaaaa"
        = toLowerStr (jsString (jget okPayload "signerAddress"))
    ∧ addrShapeOk "0xaaaaaaaaaaaaaaaaaaaaaaaaaaaaaaaaaaaaaaaa" = true
    ∧ checksAfterParse hashCaseEnv ⟨[("x", "y")], []⟩
        (setField okPayload "signerAddress"
          (.str "0xaaaaaaaaaaaaaaaaaaaaaaaaaaaaaaaaaaaaaaaa")) = .ok () :=
  ⟨rfl, rfl, rfl,
   (caseInsensitive_amended hashCaseEnv ⟨[("x", "y")], []⟩ okPayload rfl).1
     "0xaaaaaaaaaaaaaaaaaaaaaaaaaaaaaaaaaaaaaaaa" rfl rfl⟩

end CryptoVid
